import Mathlib

/-!
Shallow embedding of `denon_remote.py` (class `DenonRemote`), a serial-line
command/query client for a Denon 2307CI receiver.

Modelling conventions:
* The mutable instance together with its serial transport is a `State`
  record; every Python method becomes a pure function from `State` to
  `State` (queries additionally return their reply).
* The serial transport is modelled by an `input` byte stream (the bytes the
  receiver will deliver), a `written` log (the byte sequences passed to
  `port.write`, in order) and an open flag (`port.isOpen()`).
* The code runs under Python 2 (pyserial 3.x `read_until(terminator=...)`,
  `str` writes), so `/` on integers in `set_volume` is floor division,
  embedded as `Int.fdiv`.
* pyserial's `Serial.read_until(terminator, size)` reads one byte at a
  time, appends it, stops when the accumulated line ends with the
  terminator (which is therefore INCLUDED in the result), when the line
  length reaches `size`, or when the stream is exhausted.
* Logging is side-effect only: `logger.error` calls append an `ErrMsg` to
  `errorLog`, `logger.info` calls append their formatted message to
  `infoLog`.  `%`/`format` interpolation is embedded as string append.
-/

namespace DenonRemote

/-- Error-severity log messages the remote can emit: the "Tried to send a
command but port was not open" guard in `query`/`command`, and the
"calculated volume setting above max volume level: %d" guard in
`set_volume` (carrying the offending device value). -/
inductive ErrMsg where
  | notOpen : ErrMsg
  | volumeAboveMax : Int → ErrMsg
deriving DecidableEq

/-- The Python exception this embedding can surface: the `AttributeError`
raised by `self.port` when `open()` has never created the port object. -/
inductive PyExn where
  | attributeError : PyExn
deriving DecidableEq

/-- State of a `DenonRemote` instance together with its serial transport.
`port_name` and `baud_rate` are the connection parameters stored by
`__init__`; `portExists` records whether the `self.port` attribute exists
(it is created only by `open()`; before that, touching `self.port` raises
`AttributeError`); `portConfig` is the configuration pushed onto the serial
port object by `open()`; `portOpen` is `port.isOpen()`; `written` is the
ordered log of byte sequences passed to `port.write`; `input` is the byte
stream the receiver will deliver to reads. -/
structure State where
  port_name : String
  baud_rate : Int
  portExists : Bool
  portOpen : Bool
  portConfig : Option (String × Int)
  written : List String
  input : List Char
  errorLog : List ErrMsg
  infoLog : List String
deriving DecidableEq

/-- The default baud rate, from the `baud_rate=9600` default of
`__init__`. -/
def default_baud_rate : Int := 9600

/-- `DenonRemote.__init__(port_name, log_level, baud_rate)`: stores the
connection parameters; logging setup is side-effect only. The `self.port`
attribute does NOT exist yet (`portExists := false`): until `open()`
creates it, any method that touches `self.port` raises `AttributeError`
(see `query_py` and `command_py`). -/
def init (port_name : String) (baud_rate : Int) : State :=
  { port_name := port_name
    baud_rate := baud_rate
    portExists := false
    portOpen := false
    portConfig := none
    written := []
    input := []
    errorLog := []
    infoLog := [] }

/-- `DenonRemote(port_name)` with the baud rate left to its default. -/
def init_default (port_name : String) : State :=
  init port_name default_baud_rate

/-- `open()`: creates the serial port object (`self.port = serial.Serial()`,
so the attribute now exists), configures it from the stored connection
parameters (`port.baudrate = self.baud_rate`, `port.port = self.port_name`)
and opens it. -/
def openPort (s : State) : State :=
  { s with portExists := true
           portConfig := some (s.port_name, s.baud_rate)
           portOpen := true }

/-- `close()`: closes the serial port via `self.port.close()`. Like every
access to `self.port`, this presupposes that `open()` has created the port
object; the specification leaves `close` on a Closed session unspecified
and caller-guarded, so only that normal path is modelled here. -/
def close (s : State) : State :=
  { s with portOpen := false }

/-- pyserial `Serial.read_until(terminator, size)` specialised to a
one-byte terminator: read one byte at a time; after appending a byte stop
if it is the terminator (the terminator is included in the result) or if
`size` bytes have been accumulated; stop when the stream is exhausted. -/
def read_until (term : Char) : Nat → List Char → List Char
  | _, [] => []
  | size, c :: rest =>
    if c = term then [c]
    else if size ≤ 1 then [c]
    else c :: read_until term (size - 1) rest

/-- Python string formatting of a `query` result: a string formats as
itself, `None` formats as "None". -/
def formatOpt : Option String → String
  | some r => r
  | none => "None"

/-- The body of `query(q)`, reachable only once `self.port` exists (see
`query_py` for the attribute lookup): if the port is not open, log an
error and return `None`; otherwise write `q + "?" + CR`, then
`read_until(terminator=CR, size=135)` on the reply stream, returning the
bytes read. -/
def query (s : State) (q : String) : Option String × State :=
  if s.portOpen = false then
    (none, { s with errorLog := s.errorLog ++ [ErrMsg.notOpen] })
  else
    let s1 := { s with written := s.written ++ [q ++ "?\r"] }
    let resp := read_until '\r' 135 s1.input
    (some (String.mk resp), { s1 with input := s1.input.drop resp.length })

/-- The body of `command(c)`, reachable only once `self.port` exists (see
`command_py`): if the port is not open, log an error and return; otherwise
write `c + CR`. -/
def command (s : State) (c : String) : State :=
  if s.portOpen = false then
    { s with errorLog := s.errorLog ++ [ErrMsg.notOpen] }
  else
    { s with written := s.written ++ [c ++ "\r"] }

/-- The method `query` with the Python attribute lookup made explicit: the
guard `self.port.isOpen() == False` first evaluates `self.port`, which
raises `AttributeError` on an instance `open()` has never been called on —
before any guard, log or write runs. When the port object exists, the
method is the body `query`. -/
def query_py (s : State) (q : String) : Except PyExn (Option String × State) :=
  if s.portExists = false then Except.error PyExn.attributeError
  else Except.ok (query s q)

/-- The method `command` with the Python attribute lookup made explicit
(same shape as `query_py`). -/
def command_py (s : State) (c : String) : Except PyExn State :=
  if s.portExists = false then Except.error PyExn.attributeError
  else Except.ok (command s c)

/-- `power_off()`: log, then send the fixed command `PWSTANDBY`. -/
def power_off (s : State) : State :=
  command { s with infoLog := s.infoLog ++ ["powering off"] } "PWSTANDBY"

/-- `power_on()`: log, then send the fixed command `PWON`. -/
def power_on (s : State) : State :=
  command { s with infoLog := s.infoLog ++ ["powering on"] } "PWON"

/-- `query_power()`: log, query code `PW`, log the raw reply via
`'power: ..'.format(..)`. -/
def query_power (s : State) : State :=
  let s1 := { s with infoLog := s.infoLog ++ ["querying power status"] }
  let r := query s1 "PW"
  { r.2 with infoLog := r.2.infoLog ++ ["power: " ++ formatOpt r.1] }

/-- `query_volume()`: log, query code `MV`, log the raw reply. -/
def query_volume (s : State) : State :=
  let s1 := { s with infoLog := s.infoLog ++ ["querying volume status"] }
  let r := query s1 "MV"
  { r.2 with infoLog := r.2.infoLog ++ ["volume: " ++ formatOpt r.1] }

/-- `set_volume(volume_level)`: compute
`new_volume = volume_level * (max_volume - min_volume) / 100 + min_volume`
with `max_volume = 65`, `min_volume = 25` (Python 2 floor division); if the
result exceeds `max_volume`, log an error and return without sending;
otherwise log and send `MV<new_volume>`. -/
def set_volume (s : State) (volume_level : Int) : State :=
  let max_volume : Int := 65
  let min_volume : Int := 25
  let new_volume := Int.fdiv (volume_level * (max_volume - min_volume)) 100 + min_volume
  if new_volume > max_volume then
    { s with errorLog := s.errorLog ++ [ErrMsg.volumeAboveMax new_volume] }
  else
    let s1 := { s with infoLog := s.infoLog ++
      ["setting volume to " ++ toString volume_level ++ "% (MV" ++ toString new_volume ++ ")"] }
    command s1 ("MV" ++ toString new_volume)

/-- `query_source()`: log, query code `SI`, log the raw reply. -/
def query_source (s : State) : State :=
  let s1 := { s with infoLog := s.infoLog ++ ["querying input source"] }
  let r := query s1 "SI"
  { r.2 with infoLog := r.2.infoLog ++ ["source: " ++ formatOpt r.1] }

/-- `set_source(source_name)`: log, then send `SI<source_name>`
unconditionally. -/
def set_source (s : State) (source_name : String) : State :=
  command { s with infoLog := s.infoLog ++ ["setting source to " ++ source_name] }
    ("SI" ++ source_name)

/-- The device value `set_volume` computes for a given percentage: the
Python 2 expression `volume_level * (65 - 25) / 100 + 25` (floor
division). -/
def device_value (percent : Int) : Int :=
  Int.fdiv (percent * (65 - 25)) 100 + 25

/-- The read behaviour stated by the specification: the reply is the prefix
of the stream up to and including the first carriage return, or the first
`size` bytes when no carriage return appears among them — whichever is
shorter. -/
def readSpec (term : Char) (size : Nat) (l : List Char) : List Char :=
  l.take (min size (l.findIdx (· == term) + 1))

/-- A byte sequence ends in exactly one carriage return: its last byte is
CR and the byte before it (when present) is not. -/
def endsInOneCR (l : List Char) : Bool :=
  l.getLast? == some '\r' && !(l.dropLast.getLast? == some '\r')

/-- A concrete freshly-constructed remote on port COM4, opened; used by the
concrete witnesses below. -/
def demo : State := openPort (init_default "COM4")

/-! Helper lemmas about the embedded operations. -/

/-- `set_volume` unfolded through its local lets, phrased with
`device_value`. -/
theorem set_volume_eq (s : State) (p : Int) :
    set_volume s p =
      if device_value p > 65 then
        { s with errorLog := s.errorLog ++ [ErrMsg.volumeAboveMax (device_value p)] }
      else
        command { s with infoLog := s.infoLog ++
            ["setting volume to " ++ toString p ++ "% (MV" ++ toString (device_value p) ++ ")"] }
          ("MV" ++ toString (device_value p)) := rfl

/-- The device value in terms of Euclidean division (which agrees with
floor division for the positive divisor 100). -/
theorem device_value_eq_ediv (p : Int) : device_value p = p * 40 / 100 + 25 := by
  have h40 : (65 : Int) - 25 = 40 := by norm_num
  rw [device_value, h40, Int.fdiv_eq_ediv _ (by norm_num)]

/-- Percentages at most 100 map to device values at most 65. -/
theorem device_value_le_of_le (p : Int) (h : p ≤ 100) : device_value p ≤ 65 := by
  rw [device_value_eq_ediv]; omega

/-- Negative percentages map to device values below the minimum 25. -/
theorem device_value_lt_of_neg (p : Int) (h : p < 0) : device_value p < 25 := by
  rw [device_value_eq_ediv]; omega

/-- `query` on an open session, unfolded. -/
theorem query_eq_open (s : State) (q : String) (hopen : s.portOpen = true) :
    query s q =
      (some (String.mk (read_until '\r' 135 s.input)),
       { s with written := s.written ++ [q ++ "?\r"],
                input := s.input.drop (read_until '\r' 135 s.input).length }) := by
  unfold query
  rw [if_neg (by simp [hopen])]

/-- The byte-at-a-time pyserial read agrees with the specification-level
description: the prefix of the stream up to and including the first
terminator, truncated to `size` bytes. -/
theorem read_until_eq_readSpec (term : Char) :
    ∀ (size : Nat) (l : List Char), 1 ≤ size →
      read_until term size l = readSpec term size l := by
  intro size l
  induction l generalizing size with
  | nil => intro _; simp [read_until, readSpec]
  | cons c rest ih =>
    intro h
    by_cases hc : c = term
    · subst hc
      have hmin : min size (0 + 1) = 1 := by omega
      simp [read_until, readSpec, List.findIdx_cons, hmin]
    · by_cases hs : size ≤ 1
      · have hsize : size = 1 := by omega
        subst hsize
        have hmin : min 1 (rest.findIdx (· == term) + 1 + 1) = 1 := by omega
        simp [read_until, readSpec, List.findIdx_cons, hc, hmin]
      · have h1 : 1 ≤ size - 1 := by omega
        have ihr := ih (size - 1) h1
        have hb : (c == term) = false := beq_eq_false_iff_ne.mpr hc
        have hmin : min size (rest.findIdx (· == term) + 1 + 1)
            = min (size - 1) (rest.findIdx (· == term) + 1) + 1 := by omega
        simp [read_until, readSpec, List.findIdx_cons, hc, hs, ihr, hb, hmin,
          List.take_succ_cons]

/-- The specification-level read never returns more than `size` bytes. -/
theorem readSpec_length_le (term : Char) (size : Nat) (l : List Char) :
    (readSpec term size l).length ≤ size := by
  simp only [readSpec, List.length_take]
  omega

/-- When the stream holds at least `size` bytes and none is the
terminator, the read returns exactly `size` bytes. -/
theorem read_until_length_of_no_term (term : Char) :
    ∀ (size : Nat) (l : List Char), 1 ≤ size → size ≤ l.length →
      (∀ c ∈ l, c ≠ term) → (read_until term size l).length = size := by
  intro size l
  induction l generalizing size with
  | nil => intro h hle _; simp only [List.length_nil] at hle; omega
  | cons c rest ih =>
    intro h hle hno
    have hc : c ≠ term := hno c (List.mem_cons_self c rest)
    by_cases hs : size ≤ 1
    · have hsize : size = 1 := by omega
      subst hsize
      simp [read_until, hc]
    · have h1 : 1 ≤ size - 1 := by omega
      have h2 : size - 1 ≤ rest.length := by
        simp only [List.length_cons] at hle; omega
      have ihr := ih (size - 1) h1 h2 (fun x hx => hno x (List.mem_cons_of_mem c hx))
      simp only [read_until, if_neg hc, if_neg hs, List.length_cons, ihr]
      omega

/-- `command` never changes the connection parameters. -/
theorem command_preserves_params (s : State) (c : String) :
    (command s c).port_name = s.port_name ∧ (command s c).baud_rate = s.baud_rate := by
  unfold command
  split <;> exact ⟨rfl, rfl⟩

/-- `query` never changes the connection parameters. -/
theorem query_preserves_params (s : State) (q : String) :
    (query s q).2.port_name = s.port_name ∧ (query s q).2.baud_rate = s.baud_rate := by
  unfold query
  split <;> exact ⟨rfl, rfl⟩

/-- `set_volume` never changes the connection parameters. -/
theorem set_volume_preserves_params (s : State) (v : Int) :
    (set_volume s v).port_name = s.port_name ∧ (set_volume s v).baud_rate = s.baud_rate := by
  rw [set_volume_eq]
  split
  · exact ⟨rfl, rfl⟩
  · exact command_preserves_params _ _

/-- A payload with no carriage return, once terminated, ends in exactly
one carriage return. -/
theorem endsInOneCR_terminated (p : String) (h : '\r' ∉ p.toList) :
    endsInOneCR ((p ++ "\r").toList) = true := by
  have ht : (p ++ "\r").toList = p.toList ++ ['\r'] := by simp
  rw [endsInOneCR, ht]
  simp only [List.getLast?_concat, List.dropLast_concat, beq_self_eq_true, Bool.true_and,
    Bool.not_eq_true', beq_eq_false_iff_ne, ne_eq]
  intro hlast
  exact absurd (List.mem_of_mem_getLast? hlast) h

/-! Claim theorems. -/

/-- C1: for every percent in [0,100], `set_volume` computes the device
value by the linear mapping `device = percent * (65 - 25) / 100 + 25` in
integer arithmetic (so 0 maps to 25, 50 to 45, 100 to 65) and, on an open
session, sends the command `MV` followed by that device value. -/
theorem set_volume_linear_mapping (s : State) (percent : Int)
    (hopen : s.portOpen = true) (h0 : 0 ≤ percent) (h1 : percent ≤ 100) :
    device_value percent = percent * (65 - 25) / 100 + 25 ∧
    (set_volume s percent).written =
      s.written ++ ["MV" ++ toString (device_value percent) ++ "\r"] := by
  have hle : ¬ device_value percent > 65 :=
    not_lt.mpr (device_value_le_of_le percent h1)
  refine ⟨by rw [device_value_eq_ediv]; norm_num, ?_⟩
  rw [set_volume_eq, if_neg hle]
  simp [command, hopen, String.append_assoc]

/-- C1 witness: percent 50 maps to device value 45 and sends `MV45`. -/
theorem set_volume_linear_mapping_witness :
    (device_value 50 = 50 * (65 - 25) / 100 + 25 ∧
      (set_volume demo 50).written =
        demo.written ++ ["MV" ++ toString (device_value 50) ++ "\r"]) ∧
    device_value 50 = 45 ∧
    (set_volume demo 50).written = ["MV45\r"] :=
  ⟨set_volume_linear_mapping demo 50 rfl (by decide) (by decide), by decide, by decide⟩

/-- C2: whenever the computed device value exceeds the maximum 65,
`set_volume` transmits nothing (the write log is unchanged: the whole
state is unchanged except one appended error-log entry reporting the
violation) and returns normally — the embedding is a total function. -/
theorem set_volume_above_max_aborts (s : State) (percent : Int)
    (h : device_value percent > 65) :
    set_volume s percent =
      { s with errorLog := s.errorLog ++ [ErrMsg.volumeAboveMax (device_value percent)] } ∧
    (set_volume s percent).written = s.written := by
  rw [set_volume_eq, if_pos h]
  exact ⟨rfl, rfl⟩

/-- C2 witness: percent 103 computes device value 66 > 65, nothing is
written and the violation is logged. -/
theorem set_volume_above_max_aborts_witness :
    device_value 103 > 65 ∧
    set_volume demo 103 =
      { demo with errorLog := demo.errorLog ++ [ErrMsg.volumeAboveMax (device_value 103)] } ∧
    (set_volume demo 103).written = demo.written :=
  ⟨by decide, set_volume_above_max_aborts demo 103 (by decide)⟩

/-- C3: on an open session `query(code)` writes exactly
`code ++ "?" ++ CR` (one write, performed before the read: the read
consumes the pre-existing input stream), and the read result is the prefix
of the reply stream up to and including the first carriage return,
truncated to 135 bytes — hence at most 135 bytes long. -/
theorem query_write_then_bounded_read (s : State) (q : String)
    (hopen : s.portOpen = true) :
    (query s q).2.written = s.written ++ [q ++ "?\r"] ∧
    (query s q).1 = some (String.mk (readSpec '\r' 135 s.input)) ∧
    (String.mk (readSpec '\r' 135 s.input)).length ≤ 135 := by
  rw [query_eq_open s q hopen, read_until_eq_readSpec '\r' 135 s.input (by norm_num)]
  exact ⟨rfl, rfl, readSpec_length_le '\r' 135 s.input⟩

/-- C3 witness: the theorem instantiated at the concrete open session. -/
theorem query_write_then_bounded_read_witness :
    (query demo "PW").2.written = demo.written ++ ["PW?\r"] ∧
    (query demo "PW").1 = some (String.mk (readSpec '\r' 135 demo.input)) ∧
    (String.mk (readSpec '\r' 135 demo.input)).length ≤ 135 :=
  query_write_then_bounded_read demo "PW" rfl

/-- C4 counterexample: on a freshly constructed — never opened, hence
Closed, exactly as the spec's "Created Closed" — remote, `self.port` does
not exist, so both `query` and `command` raise `AttributeError` at the
guard's attribute lookup instead of logging an error and returning: the
"never raises" part of the claim fails at this concrete Closed state. -/
theorem closed_fresh_instance_raises :
    (init_default "COM4").portOpen = false ∧
    query_py (init_default "COM4") "PW" = Except.error PyExn.attributeError ∧
    command_py (init_default "COM4") "PWON" = Except.error PyExn.attributeError :=
  ⟨rfl, rfl, rfl⟩

/-- C4 amended: on a Closed session whose port object exists (the session
was opened and later closed), `query` and `command` raise nothing — the
method result is an `Except.ok` — write nothing to the transport, log the
not-open error, and `query` returns an absent result; calling either twice
still leaves the write log exactly as it was, the same absence of
transport effect as one call. On a never-opened instance the attribute
lookup raises `AttributeError` instead (see the counterexample). -/
theorem closed_command_query_noop (s : State) (q c : String)
    (hex : s.portExists = true) (hclosed : s.portOpen = false) :
    query_py s q = Except.ok (query s q) ∧
    command_py s c = Except.ok (command s c) ∧
    (query s q).1 = none ∧
    (query s q).2 = { s with errorLog := s.errorLog ++ [ErrMsg.notOpen] } ∧
    command s c = { s with errorLog := s.errorLog ++ [ErrMsg.notOpen] } ∧
    (query (query s q).2 q).2.written = s.written ∧
    (command (command s c) c).written = s.written := by
  have hq : query s q = (none, { s with errorLog := s.errorLog ++ [ErrMsg.notOpen] }) := by
    unfold query; rw [if_pos hclosed]
  have hcmd : command s c = { s with errorLog := s.errorLog ++ [ErrMsg.notOpen] } := by
    unfold command; rw [if_pos hclosed]
  have hclosed2 :
      ({ s with errorLog := s.errorLog ++ [ErrMsg.notOpen] } : State).portOpen = false :=
    hclosed
  refine ⟨?_, ?_, by rw [hq], by rw [hq], hcmd, ?_, ?_⟩
  · unfold query_py; rw [if_neg (by simp [hex])]
  · unfold command_py; rw [if_neg (by simp [hex])]
  · rw [hq]
    show (query { s with errorLog := s.errorLog ++ [ErrMsg.notOpen] } q).2.written = s.written
    unfold query
    rw [if_pos hclosed2]
  · rw [hcmd]
    unfold command
    rw [if_pos hclosed2]

/-- C4 amended witness: a remote that was opened and then closed — the
port object exists, the session is Closed — where both operations are
raise-free, write-free logged no-ops, twice as well as once. -/
theorem closed_command_query_noop_witness :
    query_py (close (openPort (init_default "COM4"))) "PW" =
      Except.ok (query (close (openPort (init_default "COM4"))) "PW") ∧
    command_py (close (openPort (init_default "COM4"))) "PWON" =
      Except.ok (command (close (openPort (init_default "COM4"))) "PWON") ∧
    (query (close (openPort (init_default "COM4"))) "PW").1 = none ∧
    (query (close (openPort (init_default "COM4"))) "PW").2 =
      { close (openPort (init_default "COM4")) with
          errorLog := (close (openPort (init_default "COM4"))).errorLog ++ [ErrMsg.notOpen] } ∧
    command (close (openPort (init_default "COM4"))) "PWON" =
      { close (openPort (init_default "COM4")) with
          errorLog := (close (openPort (init_default "COM4"))).errorLog ++ [ErrMsg.notOpen] } ∧
    (query (query (close (openPort (init_default "COM4"))) "PW").2 "PW").2.written =
      (close (openPort (init_default "COM4"))).written ∧
    (command (command (close (openPort (init_default "COM4"))) "PWON") "PWON").written =
      (close (openPort (init_default "COM4"))).written :=
  closed_command_query_noop (close (openPort (init_default "COM4"))) "PW" "PWON" rfl rfl

/-- C5: on an open session `set_source("TUNER")` transmits exactly the
bytes `SITUNER\r` (the fixed `SI` prefix prepended, one terminator
appended) and `power_off()` transmits exactly `PWSTANDBY\r`. -/
theorem set_source_tuner_power_off_bytes (s : State)
    (hopen : s.portOpen = true) :
    (set_source s "TUNER").written = s.written ++ ["SITUNER\r"] ∧
    (power_off s).written = s.written ++ ["PWSTANDBY\r"] := by
  constructor <;> simp [set_source, power_off, command, hopen]

/-- C5 witness: the theorem instantiated at the concrete open session. -/
theorem set_source_tuner_power_off_bytes_witness :
    (set_source demo "TUNER").written = demo.written ++ ["SITUNER\r"] ∧
    (power_off demo).written = demo.written ++ ["PWSTANDBY\r"] :=
  set_source_tuner_power_off_bytes demo rfl

/-- C6 counterexample: with reply stream `PWON\r`, the raw reply returned
by the query is `PWON\r` — the carriage-return terminator is NOT stripped —
which differs from `PWON`, and `query_power` logs `power: PWON\r`, not
`power: PWON`. -/
theorem query_power_terminator_not_stripped :
    (query { demo with input := "PWON\r".toList } "PW").1 = some "PWON\r" ∧
    ("PWON\r" : String) ≠ "PWON" ∧
    (query_power { demo with input := "PWON\r".toList }).infoLog =
      ["querying power status", "power: PWON\r"] := by
  refine ⟨rfl, by decide, rfl⟩

/-- C6 amended: when the transport delivers `PWON\r`, the raw reply the
query obtains is `PWON\r` — terminator included, per the pyserial
`read_until` convention — and `query_power` logs that raw string verbatim
(`power: PWON\r`). -/
theorem query_power_reply_verbatim (s : State) (hopen : s.portOpen = true)
    (hin : s.input = "PWON\r".toList) :
    (query s "PW").1 = some "PWON\r" ∧
    (query_power s).infoLog =
      s.infoLog ++ ["querying power status", "power: PWON\r"] := by
  have h1 : ({ s with infoLog := s.infoLog ++ ["querying power status"] } : State).portOpen
      = true := hopen
  constructor
  · rw [query_eq_open s "PW" hopen, hin]
    show some (String.mk (read_until '\r' 135 "PWON\r".toList)) = some "PWON\r"
    decide
  · show ((query { s with infoLog := s.infoLog ++ ["querying power status"] } "PW").2.infoLog
        ++ ["power: " ++ formatOpt
              (query { s with infoLog := s.infoLog ++ ["querying power status"] } "PW").1])
      = s.infoLog ++ ["querying power status", "power: PWON\r"]
    rw [query_eq_open _ "PW" h1]
    show (s.infoLog ++ ["querying power status"])
        ++ ["power: " ++ formatOpt (some (String.mk (read_until '\r' 135 s.input)))]
      = s.infoLog ++ ["querying power status", "power: PWON\r"]
    rw [hin]
    have hstr : "power: " ++ formatOpt (some (String.mk (read_until '\r' 135 "PWON\r".toList)))
        = "power: PWON\r" := by decide
    rw [hstr]
    simp

/-- C6 amended witness: the concrete open session with reply `PWON\r`. -/
theorem query_power_reply_verbatim_witness :
    (query { demo with input := "PWON\r".toList } "PW").1 = some "PWON\r" ∧
    (query_power { demo with input := "PWON\r".toList }).infoLog =
      ({ demo with input := "PWON\r".toList } : State).infoLog
        ++ ["querying power status", "power: PWON\r"] :=
  query_power_reply_verbatim { demo with input := "PWON\r".toList } rfl rfl

/-- C7: when the reply stream holds 200 bytes and none of them is a
carriage return, the read performed by `query` returns exactly 135 bytes;
no failure occurs and the truncated reply is handed to the caller. -/
theorem query_truncates_long_reply (s : State) (q : String)
    (hopen : s.portOpen = true) (hlen : s.input.length = 200)
    (hno : ∀ c ∈ s.input, c ≠ '\r') :
    (query s q).1 = some (String.mk (read_until '\r' 135 s.input)) ∧
    (String.mk (read_until '\r' 135 s.input)).length = 135 := by
  rw [query_eq_open s q hopen]
  refine ⟨rfl, ?_⟩
  show (read_until '\r' 135 s.input).length = 135
  exact read_until_length_of_no_term '\r' 135 s.input (by norm_num) (by omega) hno

/-- C7 witness: a stream of 200 `A` bytes is truncated to 135 bytes. -/
theorem query_truncates_long_reply_witness :
    (query { demo with input := List.replicate 200 'A' } "MV").1 =
      some (String.mk (read_until '\r' 135
        ({ demo with input := List.replicate 200 'A' } : State).input)) ∧
    (String.mk (read_until '\r' 135
        ({ demo with input := List.replicate 200 'A' } : State).input)).length = 135 :=
  query_truncates_long_reply { demo with input := List.replicate 200 'A' } "MV" rfl
    (show (List.replicate 200 'A').length = 200 by rw [List.length_replicate])
    (by
      intro x hx
      have hxa : x = 'A' := (List.eq_of_mem_replicate hx)
      rw [hxa]; decide)

/-- C8: the connection parameters are set once at construction (the baud
rate defaulting to 9600 when not supplied), no operation — open, close,
query, command, or any device operation — modifies them, and they are
consumed exactly when opening the session (copied into the serial-port
configuration). -/
theorem connection_params_immutable (name q c src : String) (baud v : Int)
    (s : State) :
    (init name baud).port_name = name ∧ (init name baud).baud_rate = baud ∧
    (init_default name).baud_rate = 9600 ∧
    (openPort s).portConfig = some (s.port_name, s.baud_rate) ∧
    (openPort s).port_name = s.port_name ∧ (openPort s).baud_rate = s.baud_rate ∧
    (close s).port_name = s.port_name ∧ (close s).baud_rate = s.baud_rate ∧
    (query s q).2.port_name = s.port_name ∧ (query s q).2.baud_rate = s.baud_rate ∧
    (command s c).port_name = s.port_name ∧ (command s c).baud_rate = s.baud_rate ∧
    (power_off s).port_name = s.port_name ∧ (power_off s).baud_rate = s.baud_rate ∧
    (power_on s).port_name = s.port_name ∧ (power_on s).baud_rate = s.baud_rate ∧
    (query_power s).port_name = s.port_name ∧
    (query_power s).baud_rate = s.baud_rate ∧
    (query_volume s).port_name = s.port_name ∧
    (query_volume s).baud_rate = s.baud_rate ∧
    (set_volume s v).port_name = s.port_name ∧
    (set_volume s v).baud_rate = s.baud_rate ∧
    (query_source s).port_name = s.port_name ∧
    (query_source s).baud_rate = s.baud_rate ∧
    (set_source s src).port_name = s.port_name ∧
    (set_source s src).baud_rate = s.baud_rate :=
  ⟨rfl, rfl, rfl, rfl, rfl, rfl, rfl, rfl,
    (query_preserves_params s q).1, (query_preserves_params s q).2,
    (command_preserves_params s c).1, (command_preserves_params s c).2,
    (command_preserves_params _ _).1, (command_preserves_params _ _).2,
    (command_preserves_params _ _).1, (command_preserves_params _ _).2,
    (query_preserves_params _ _).1, (query_preserves_params _ _).2,
    (query_preserves_params _ _).1, (query_preserves_params _ _).2,
    (set_volume_preserves_params s v).1, (set_volume_preserves_params s v).2,
    (query_preserves_params _ _).1, (query_preserves_params _ _).2,
    (command_preserves_params _ _).1, (command_preserves_params _ _).2⟩

/-- C9: `set_volume` enforces no lower bound: for every integer percent it
aborts exactly when the computed device value exceeds 65, and otherwise —
including every negative percent, whose device value is below the minimum
25 — sends `MV` followed by that device value on an open session. -/
theorem set_volume_no_lower_bound (s : State) (percent : Int)
    (hopen : s.portOpen = true) :
    (0 ≤ percent ∨ device_value percent < 25) ∧
    (set_volume s percent).written =
      (if device_value percent > 65 then s.written
       else s.written ++ ["MV" ++ toString (device_value percent) ++ "\r"]) := by
  refine ⟨(le_or_lt 0 percent).imp id (device_value_lt_of_neg percent), ?_⟩
  rw [set_volume_eq]
  split
  · rfl
  · simp [command, hopen, String.append_assoc]

/-- C9 witness: percent -10 computes device value 21 < 25 and still sends
`MV21`. -/
theorem set_volume_no_lower_bound_witness :
    ((0 ≤ (-10 : Int) ∨ device_value (-10) < 25) ∧
      (set_volume demo (-10)).written =
        (if device_value (-10) > 65 then demo.written
         else demo.written ++ ["MV" ++ toString (device_value (-10)) ++ "\r"])) ∧
    device_value (-10) = 21 ∧
    (set_volume demo (-10)).written = ["MV21\r"] :=
  ⟨set_volume_no_lower_bound demo (-10) rfl, by decide, by decide⟩

/-- C10 counterexample: `command` invoked with a payload that itself ends
in a carriage return writes a byte sequence ending in TWO carriage
returns: `command(\x22PW\r\x22)` on the open session writes exactly
`PW\r\r`, which does not end in exactly one carriage return. -/
theorem command_payload_cr_double_terminator :
    (command demo "PW\r").written = ["PW\r\r"] ∧
    endsInOneCR ("PW\r\r".toList) = false := by
  exact ⟨rfl, by decide⟩

/-- C10 amended: each call to `command` or `query` performs at most one
transport write (the log is unchanged or gains exactly one entry); the
written entry is the payload followed by one appended carriage return, so
whenever the payload contains no carriage return — as for every fixed
device-level command of this client — the transmitted bytes end in exactly
one carriage-return terminator. -/
theorem writes_single_terminated_line (s : State) (q c : String)
    (hq : '\r' ∉ q.toList) (hc : '\r' ∉ c.toList) :
    ((command s c).written = s.written ∨
      (command s c).written = s.written ++ [c ++ "\r"]) ∧
    ((query s q).2.written = s.written ∨
      (query s q).2.written = s.written ++ [q ++ "?\r"]) ∧
    endsInOneCR ((c ++ "\r").toList) = true ∧
    endsInOneCR ((q ++ "?\r").toList) = true := by
  refine ⟨?_, ?_, endsInOneCR_terminated c hc, ?_⟩
  · unfold command
    split
    · exact Or.inl rfl
    · exact Or.inr rfl
  · unfold query
    split
    · exact Or.inl rfl
    · exact Or.inr rfl
  · have hq2 : '\r' ∉ (q ++ "?").toList := by
      have ht : (q ++ "?").toList = q.toList ++ "?".toList := by simp
      rw [ht]
      intro hmem
      rcases List.mem_append.mp hmem with h | h
      · exact hq h
      · exact absurd h (by decide)
    have hterm := endsInOneCR_terminated (q ++ "?") hq2
    have hlit : ("?" : String) ++ "\r" = "?\r" := rfl
    rw [String.append_assoc, hlit] at hterm
    exact hterm

/-- C10 amended witness: the fixed payloads `PWSTANDBY` and `PW` at the
concrete open session. -/
theorem writes_single_terminated_line_witness :
    ((command demo "PWSTANDBY").written = demo.written ∨
      (command demo "PWSTANDBY").written = demo.written ++ ["PWSTANDBY" ++ "\r"]) ∧
    ((query demo "PW").2.written = demo.written ∨
      (query demo "PW").2.written = demo.written ++ ["PW" ++ "?\r"]) ∧
    endsInOneCR (("PWSTANDBY" ++ "\r").toList) = true ∧
    endsInOneCR (("PW" ++ "?\r").toList) = true :=
  writes_single_terminated_line demo "PW" "PWSTANDBY" (by decide) (by decide)

end DenonRemote
